import Mathlib

/-!
Shallow embedding of `src/lib/dde_linux26/arch/dde_kit/page_alloc.c` from the
genodelabs/linux_drivers repository: the DDE-Linux 2.6 page-descriptor cache
(a 1024-bucket hash table over page-aligned virtual addresses) and the page
allocation facade built on top of the external `dde_kit` raw-memory provider.

Machine integers (`unsigned long`, virtual addresses, sizes) are modelled as
`Nat`; the bit operations used by the C code (`>> PAGE_SHIFT`, `& PAGE_MASK`,
`& DDE_PAGE_CACHE_MASK`, `<< order`) are written with the corresponding `Nat`
bitwise operators, which agree with the 32-bit C semantics on all in-range
values because the masks only clear low bits.

The external collaborators (`dde_kit_large_malloc`, `dde_kit_large_free`,
`memset`, `kmalloc`) are modelled as operations on an explicit state `St`:
the provider is an oracle list of upcoming replies (`0` = refusal, as NULL),
each call consumes one reply and is logged in a request trace; `kmalloc` for
page structs always succeeds (per the design, node allocation failure is not
modelled) and hands out fresh identities, which model C pointer identity of
`struct page` objects.
-/

/-- `PAGE_SHIFT` for the x86 target (`asm/page.h`). -/
def PAGE_SHIFT : Nat := 12

/-- `PAGE_SIZE = 1 << PAGE_SHIFT` (4096). -/
def PAGE_SIZE : Nat := 1 <<< PAGE_SHIFT

/-- `#define DDE_PAGE_CACHE_SHIFT 10` -/
def DDE_PAGE_CACHE_SHIFT : Nat := 10

/-- `#define DDE_PAGE_CACHE_SIZE (1 << DDE_PAGE_CACHE_SHIFT)` -/
def DDE_PAGE_CACHE_SIZE : Nat := 1 <<< DDE_PAGE_CACHE_SHIFT

/-- `#define DDE_PAGE_CACHE_MASK (DDE_PAGE_CACHE_SIZE - 1)` -/
def DDE_PAGE_CACHE_MASK : Nat := DDE_PAGE_CACHE_SIZE - 1

/-- `__GFP_DMA` from `linux/gfp.h` (2.6): the DMA memory-class flag. -/
def GFP_DMA : Nat := 0x01

/-- `GFP_ATOMIC` from `linux/gfp.h` (2.6). -/
def GFP_ATOMIC : Nat := 0x20

/-- `GFP_KERNEL` from `linux/gfp.h` (2.6). -/
def GFP_KERNEL : Nat := 0xd0

/-- `a & PAGE_MASK`: clear the low `PAGE_SHIFT` bits of an address. -/
def pageMask (a : Nat) : Nat := (a >>> PAGE_SHIFT) <<< PAGE_SHIFT

/-- `#define VIRT_TO_PAGEHASH(a) ((((unsigned long)a) >> PAGE_SHIFT) & DDE_PAGE_CACHE_MASK)` -/
def VIRT_TO_PAGEHASH (a : Nat) : Nat := (a >>> PAGE_SHIFT) &&& DDE_PAGE_CACHE_MASK

/-- `struct page` as used by this file: only the `virtual` field is read.
`id` models the pointer identity of the `kmalloc`ed page struct, so that two
descriptors for the same address remain distinguishable, as in C. -/
structure Page where
  id : Nat
  virtual : Nat
  deriving DecidableEq, Repr

/-- The global `dde_linux26_page_cache` hash table: bucket index to chain.
Each bucket is the `hlist`, head first; `page_cache_entry` nodes carry one
`struct page *` each, so a chain is a list of pages. -/
abbrev PageCache := Nat → List Page

/-- `dde_linux26_page_cache_add`: hash `p->virtual`, `hlist_add_head` a new
entry into the matching bucket. -/
def dde_linux26_page_cache_add (c : PageCache) (p : Page) : PageCache :=
  fun i => if i = VIRT_TO_PAGEHASH p.virtual then p :: c i else c i

/-- One step of the removal loop of `dde_linux26_page_cache_remove`: the
loop's `break` is unconditional, so only the chain head is ever inspected;
it is unlinked when its `virtual` equals the masked address, otherwise the
chain is left as it is. -/
def removeHead (t : Nat) : List Page → List Page
  | [] => []
  | e :: rest => if e.virtual = t then rest else e :: rest

/-- `dde_linux26_page_cache_remove`: hash `p->virtual` and walk the matching
bucket.  In the C source the loop body is
`if (e->page->virtual == (p->virtual & PAGE_MASK)) v = hn; break;` -- the
`break` is NOT under the `if`, so the loop leaves after inspecting the FIRST
node only (`removeHead`): the head is unlinked when it matches, otherwise
nothing is removed even when a matching node sits deeper in the chain. -/
def dde_linux26_page_cache_remove (c : PageCache) (p : Page) : PageCache :=
  fun i =>
    if i = VIRT_TO_PAGEHASH p.virtual then removeHead (pageMask p.virtual) (c i)
    else c i

/-- `dde_linux26_page_lookup`: hash `va`, scan the matching bucket from the
head and return the first entry whose `page->virtual` equals `va & PAGE_MASK`,
or NULL (`none`). -/
def dde_linux26_page_lookup (c : PageCache) (va : Nat) : Option Page :=
  (c (VIRT_TO_PAGEHASH va)).find? (fun e => e.virtual == pageMask va)

/-- Explicit state threaded through the facade operations:
the page cache, the provider oracle (upcoming `dde_kit_large_malloc` replies,
`0`/exhausted = refusal), the trace of byte sizes requested from the provider
(most recent first), the trace of addresses released through
`dde_kit_large_free` (most recent first), the byte contents of memory, and
the next fresh `struct page` identity handed out by `kmalloc`. -/
structure St where
  cache : PageCache
  oracle : List Nat
  reqs : List Nat
  frees : List Nat
  mem : Nat → Nat
  nextId : Nat

/-- `dde_kit_large_malloc(size)`: ask the external provider for `size` bytes;
the reply is the next oracle entry (`0` = refusal).  The size of every
request is logged. -/
def dde_kit_large_malloc (s : St) (size : Nat) : Nat × St :=
  (s.oracle.headD 0,
   { s with oracle := s.oracle.tail, reqs := size :: s.reqs })

/-- `dde_kit_large_free(p)`: release raw memory back to the provider. -/
def dde_kit_large_free (s : St) (addr : Nat) : St :=
  { s with frees := addr :: s.frees }

/-- `memset(p, c, n)` on the byte-addressed memory model. -/
def memset (mem : Nat → Nat) (p c n : Nat) : Nat → Nat :=
  fun a => if p ≤ a ∧ a < p + n then c else mem a

/-- `__get_free_pages(gfp_mask, order)`:
`dde_kit_assert(gfp_mask != GFP_DMA)` (modelled as `none` = abort), then
`dde_kit_large_malloc(PAGE_SIZE << order)`; NULL comes back as address 0. -/
def __get_free_pages (s : St) (gfp_mask order : Nat) : Option (Nat × St) :=
  if gfp_mask = GFP_DMA then none
  else some (dde_kit_large_malloc s (PAGE_SIZE <<< order))

/-- `__alloc_pages(gfp_mask, order, zonelist)` (the unused `zonelist`
parameter is dropped): `kmalloc` a fresh `struct page`, set its `virtual`
to the result of `__get_free_pages` -- with no check of that result -- then
`dde_linux26_page_cache_add` it and return it. -/
def __alloc_pages (s : St) (gfp_mask order : Nat) : Option (Page × St) :=
  (__get_free_pages { s with nextId := s.nextId + 1 } gfp_mask order).map
    (fun r =>
      let ret : Page := { id := s.nextId, virtual := r.1 }
      (ret, { r.2 with cache := dde_linux26_page_cache_add r.2.cache ret }))

/-- `get_zeroed_page(gfp_mask)`: `__get_free_pages(gfp_mask, 0)`; only when
the result is non-NULL, `memset` the page to zero; return the address. -/
def get_zeroed_page (s : St) (gfp_mask : Nat) : Option (Nat × St) :=
  (__get_free_pages s gfp_mask 0).map
    (fun r =>
      (r.1, if r.1 ≠ 0 then { r.2 with mem := memset r.2.mem r.1 0 PAGE_SIZE }
            else r.2))

/-- `free_pages(addr, order)`: `dde_kit_large_free((void *)addr)`; the order
argument is ignored by the provider adapter. -/
def free_pages (s : St) (addr order : Nat) : St :=
  dde_kit_large_free s addr

/-- `__free_pages(page, order)`: `free_pages((unsigned long)page->virtual,
order)` then `dde_linux26_page_cache_remove(page)`. -/
def __free_pages (s : St) (page : Page) (order : Nat) : St :=
  let s1 := free_pages s page.virtual order
  { s1 with cache := dde_linux26_page_cache_remove s1.cache page }

/-- State after `dde_linux26_page_cache_init`: every bucket empty, nothing
requested or released yet, given provider oracle and memory contents. -/
def initSt (oracle : List Nat) (mem : Nat → Nat) : St :=
  { cache := fun _ => [], oracle := oracle, reqs := [], frees := [],
    mem := mem, nextId := 0 }

/-- Total number of entries in the page cache (sum of chain lengths). -/
def cacheSize (c : PageCache) : Nat :=
  ∑ i ∈ Finset.range DDE_PAGE_CACHE_SIZE, (c i).length

/-- `ilog2` (`linux/log2.h`): floor of log2, via bounded halving; 64 steps of
fuel cover every `unsigned long` value. -/
def ilog2Fuel : Nat → Nat → Nat
  | _, 0 => 0
  | n, fuel + 1 => if n ≥ 2 then ilog2Fuel (n / 2) fuel + 1 else 0

/-- `ilog2(n)` for `unsigned long` arguments. -/
def ilog2 (n : Nat) : Nat := ilog2Fuel n 64

/-- The inner `for (order = 0; ((1UL << order) << PAGE_SHIFT) < size; order++);`
of `alloc_large_system_hash`: smallest order whose page count covers `size`.
64 steps of fuel cover every `unsigned long` size. -/
def alshOrderLoop (order size fuel : Nat) : Nat :=
  match fuel with
  | 0 => order
  | fuel + 1 =>
    if (1 <<< order) <<< PAGE_SHIFT < size then alshOrderLoop (order + 1) size fuel
    else order

/-- `--log2qty` on a 32-bit `unsigned long` (wraps at 0). -/
def decUlong (n : Nat) : Nat := if n = 0 then 2 ^ 32 - 1 else n - 1

/-- Outcome of `alloc_large_system_hash`: the C function either `panic`s or
returns the table address together with the values stored through
`_hash_shift` (`log2qty`) and `_hash_mask` (`(1 << log2qty) - 1`). -/
inductive AlshOut where
  | panicked
  | ok (table hashShift hashMask : Nat)
  deriving DecidableEq, Repr

/-- The `do { ... } while (!table && size > PAGE_SIZE && --log2qty);` loop of
`alloc_large_system_hash`.  Note `size` is fixed over all iterations (the C
source computes it once, before the loop), so the order requested never
changes.  Returns `(table, final log2qty, state)`; `none` = out of fuel,
which never happens for the fuel used below. -/
def alshLoop (s : St) (size log2qty fuel : Nat) : Option (Nat × Nat × St) :=
  match fuel with
  | 0 => none
  | fuel + 1 =>
    match __get_free_pages s GFP_ATOMIC (alshOrderLoop 0 size 64) with
    | none => none
    | some (table, s1) =>
      if table ≠ 0 then some (table, log2qty, s1)
      else if size > PAGE_SIZE then
        let l := decUlong log2qty
        if l ≠ 0 then alshLoop s1 size l fuel else some (0, l, s1)
      else some (0, log2qty, s1)

/-- `alloc_large_system_hash(tablename, bucketsize, numentries, ...)`:
default `numentries` to 1024 when 0, `log2qty = ilog2(numentries)`,
`size = bucketsize << log2qty`, run the retry loop, and `panic` when no
table was obtained. -/
def alloc_large_system_hash (s : St) (bucketsize numentries fuel : Nat) :
    Option (AlshOut × St) :=
  let numentries := if numentries = 0 then 1024 else numentries
  let log2qty := ilog2 numentries
  let size := bucketsize <<< log2qty
  match alshLoop s size log2qty fuel with
  | none => none
  | some (table, l, s1) =>
    if table = 0 then some (AlshOut.panicked, s1)
    else some (AlshOut.ok table l ((1 <<< l) - 1), s1)

/-- Cache used by several witnesses: bucket 1 holds one descriptor for
address 0x1000. -/
def bucketOneCache : PageCache := fun i => if i = 1 then [⟨0, 4096⟩] else []

/-- The state produced by `get_zeroed_page` on the oracle `[8192]` starting
from all-7 memory: used as a concrete witness below. -/
def zeroWitnessSt : St :=
  { cache := fun _ => [], oracle := [], reqs := [4096], frees := [],
    mem := memset (fun _ => 7) 8192 0 PAGE_SIZE, nextId := 0 }

/-! ## Arithmetic facts about the page mask and the bucket hash -/

theorem PAGE_SIZE_eq : PAGE_SIZE = 2 ^ PAGE_SHIFT := by
  simp [PAGE_SIZE, Nat.shiftLeft_eq]

theorem pageMask_eq_div (a : Nat) :
    pageMask a = a / 2 ^ PAGE_SHIFT * 2 ^ PAGE_SHIFT := by
  simp [pageMask, Nat.shiftRight_eq_div_pow, Nat.shiftLeft_eq]

theorem aligned_add_div {a o : Nat} (ha : pageMask a = a) (ho : o < PAGE_SIZE) :
    (a + o) / 2 ^ PAGE_SHIFT = a / 2 ^ PAGE_SHIFT := by
  have hP : 0 < 2 ^ PAGE_SHIFT := by positivity
  rw [pageMask_eq_div] at ha
  have ho' : o < 2 ^ PAGE_SHIFT := by rwa [PAGE_SIZE_eq] at ho
  calc (a + o) / 2 ^ PAGE_SHIFT
      = (2 ^ PAGE_SHIFT * (a / 2 ^ PAGE_SHIFT) + o) / 2 ^ PAGE_SHIFT := by
        rw [Nat.mul_comm, ha]
    _ = a / 2 ^ PAGE_SHIFT + o / 2 ^ PAGE_SHIFT := Nat.mul_add_div hP _ _
    _ = a / 2 ^ PAGE_SHIFT := by rw [Nat.div_eq_of_lt ho', Nat.add_zero]

theorem pageMask_add_small {a o : Nat} (ha : pageMask a = a) (ho : o < PAGE_SIZE) :
    pageMask (a + o) = a := by
  rw [pageMask_eq_div, aligned_add_div ha ho, ← pageMask_eq_div, ha]

theorem hash_add_small {a o : Nat} (ha : pageMask a = a) (ho : o < PAGE_SIZE) :
    VIRT_TO_PAGEHASH (a + o) = VIRT_TO_PAGEHASH a := by
  simp only [VIRT_TO_PAGEHASH, Nat.shiftRight_eq_div_pow]
  rw [aligned_add_div ha ho]

theorem shiftLeft_shiftRight_self (x : Nat) :
    (x <<< PAGE_SHIFT) >>> PAGE_SHIFT = x := by
  rw [Nat.shiftLeft_eq, Nat.shiftRight_eq_div_pow]
  exact Nat.mul_div_cancel x (by positivity)

theorem hash_of_pageMask (va : Nat) :
    VIRT_TO_PAGEHASH (pageMask va) = VIRT_TO_PAGEHASH va := by
  simp only [VIRT_TO_PAGEHASH, pageMask]
  rw [shiftLeft_shiftRight_self]

theorem VIRT_TO_PAGEHASH_lt (a : Nat) :
    VIRT_TO_PAGEHASH a < DDE_PAGE_CACHE_SIZE :=
  calc VIRT_TO_PAGEHASH a ≤ DDE_PAGE_CACHE_MASK := Nat.and_le_right
    _ < DDE_PAGE_CACHE_SIZE := by decide

/-! ## Facts about the cache table -/

theorem cacheSize_add (c : PageCache) (p : Page) :
    cacheSize (dde_linux26_page_cache_add c p) = cacheSize c + 1 := by
  unfold cacheSize dde_linux26_page_cache_add
  have h1 : ∀ i ∈ Finset.range DDE_PAGE_CACHE_SIZE,
      (if i = VIRT_TO_PAGEHASH p.virtual then p :: c i else c i).length
        = (c i).length + (if i = VIRT_TO_PAGEHASH p.virtual then 1 else 0) := by
    intro i _
    split <;> simp
  rw [Finset.sum_congr rfl h1, Finset.sum_add_distrib, Finset.sum_ite_eq']
  rw [if_pos (Finset.mem_range.mpr (VIRT_TO_PAGEHASH_lt p.virtual))]

theorem cacheSize_empty : cacheSize (fun _ => []) = 0 := by
  simp [cacheSize]

/-- A bucket scan returns the unique entry carrying the scanned-for
address. -/
theorem find?_eq_of_unique (l : List Page) (d : Page) (t : Nat)
    (hd : d.virtual = t) (hmem : d ∈ l)
    (huniq : ∀ e ∈ l, e.virtual = t → e = d) :
    l.find? (fun e => e.virtual == t) = some d := by
  induction l with
  | nil => cases hmem
  | cons e l ih =>
    by_cases he : e.virtual = t
    · have heq : e = d := huniq e (List.mem_cons_self e l) he
      subst heq
      rw [List.find?_cons_of_pos _ (by simp [he])]
    · rw [List.find?_cons_of_neg _ (by simp [he])]
      rcases List.mem_cons.mp hmem with h | h
      · exact absurd (by rw [← h] at he; exact absurd hd he) id
      · exact ih h (fun x hx hxt => huniq x (List.mem_cons_of_mem _ hx) hxt)

/-- Looking up any address that masks to a freshly inserted page's address
returns that page, whatever the cache held before. -/
theorem lookup_add_eq (c : PageCache) (p : Page) (va : Nat)
    (h : pageMask va = p.virtual) :
    dde_linux26_page_lookup (dde_linux26_page_cache_add c p) va = some p := by
  have hh : VIRT_TO_PAGEHASH va = VIRT_TO_PAGEHASH p.virtual := by
    rw [← h, hash_of_pageMask]
  simp only [dde_linux26_page_lookup, dde_linux26_page_cache_add]
  rw [if_pos hh, List.find?_cons_of_pos _ (by simp [h])]

/-! ## Claim theorems -/

/-- C5: `__get_free_pages` (`allocate_raw`, and through it `allocate_pages`)
aborts via `dde_kit_assert` exactly when the requested memory class is
`GFP_DMA`, the hardware-DMA-only class the provider cannot service; for any
other class the assertion passes and the request proceeds, unmodified, to the
provider.  The violation is never recovered: the abort yields no result. -/
theorem get_free_pages_dma_assert (s : St) (gfp order : Nat) :
    (__get_free_pages s gfp order = none ↔ gfp = GFP_DMA)
    ∧ (__alloc_pages s gfp order = none ↔ gfp = GFP_DMA)
    ∧ (gfp = GFP_DMA ∨
        __get_free_pages s gfp order
          = some (dde_kit_large_malloc s (PAGE_SIZE <<< order))) := by
  by_cases h : gfp = GFP_DMA <;>
    simp [__get_free_pages, __alloc_pages, h]

/-- C1 counterexample: starting from the freshly initialized state with a
provider that denies every request, `__alloc_pages` does NOT return failure:
it returns a descriptor (whose `virtual` is the failure value 0), inserts it,
and the cache entry count goes from 0 to 1. -/
theorem alloc_pages_denied_inserts :
    ((__alloc_pages (initSt [] (fun _ => 0)) GFP_KERNEL 0).map
        (fun r => (r.1, dde_linux26_page_lookup r.2.cache 0))
      = some (⟨0, 0⟩, some ⟨0, 0⟩))
    ∧ ((__alloc_pages (initSt [] (fun _ => 0)) GFP_KERNEL 0).map
        (fun r => cacheSize r.2.cache) = some 1)
    ∧ cacheSize (initSt [] (fun _ => 0)).cache = 0 := by
  refine ⟨by decide, ?_, cacheSize_empty⟩
  show some (cacheSize (dde_linux26_page_cache_add (fun _ => []) ⟨0, 0⟩)) = some 1
  rw [cacheSize_add, cacheSize_empty]

/-- C1 (amended): when the provider denies a request of a serviceable class,
`__get_free_pages` (`allocate_raw`) returns the failure value 0 and leaves the
cache untouched; `__alloc_pages` (`allocate_pages`), however, does not
propagate the failure: it still creates a descriptor whose `virtual` is the
failure value 0, inserts it into the cache (the entry count grows by one and
the descriptor is found under address 0), and returns it. -/
theorem alloc_failure_propagation_amended (s : St) (gfp order : Nat)
    (hg : gfp ≠ GFP_DMA) (hd : s.oracle.headD 0 = 0) :
    (__get_free_pages s gfp order).map Prod.fst = some 0
    ∧ (__get_free_pages s gfp order).map (fun r => r.2.cache) = some s.cache
    ∧ (__alloc_pages s gfp order).map (fun r => r.1.virtual) = some 0
    ∧ (__alloc_pages s gfp order).map (fun r => cacheSize r.2.cache)
        = some (cacheSize s.cache + 1)
    ∧ (__alloc_pages s gfp order).map
        (fun r => dde_linux26_page_lookup r.2.cache r.1.virtual)
        = some (some ⟨s.nextId, 0⟩) := by
  simp only [__get_free_pages, if_neg hg, __alloc_pages, dde_kit_large_malloc,
    Option.map_some', hd]
  refine ⟨by trivial, by trivial, by trivial, ?_, ?_⟩
  · rw [cacheSize_add]
  · rw [lookup_add_eq _ _ _ (by rfl)]

/-- C1 amended witness: the hypotheses hold at the initial state with an
always-denying provider, and there the entry count indeed grows by one. -/
theorem alloc_failure_propagation_amended_witness :
    GFP_KERNEL ≠ GFP_DMA
    ∧ (initSt [] (fun _ => 0)).oracle.headD 0 = 0
    ∧ (__alloc_pages (initSt [] (fun _ => 0)) GFP_KERNEL 0).map
        (fun r => cacheSize r.2.cache)
        = some (cacheSize (initSt [] (fun _ => 0)).cache + 1) :=
  ⟨by decide, rfl,
   (alloc_failure_propagation_amended (initSt [] (fun _ => 0)) GFP_KERNEL 0
      (by decide) rfl).2.2.2.1⟩

/-- C2 (code bug, evaluated at the failing input): allocate 0x1000, then
allocate 0x401000 (same bucket, inserted at the head), then
`__free_pages` the 0x1000 descriptor: the provider release does run (the
frees trace shows 0x1000), but because `remove`'s `break` sits outside the
`if`, only the bucket head is examined, the matching second node stays, and
`lookup(0x1000)` still returns the freed descriptor instead of "not found". -/
theorem free_pages_nonhead_lookup_survives :
    ((__alloc_pages (initSt [4096, 4198400] (fun _ => 0)) GFP_KERNEL 0).bind
      (fun r1 => (__alloc_pages r1.2 GFP_KERNEL 0).map
        (fun r2 =>
          (dde_linux26_page_lookup (__free_pages r2.2 r1.1 0).cache 4096,
           (__free_pages r2.2 r1.1 0).frees))))
      = some (some ⟨0, 4096⟩, [4096]) := by decide

/-- C3 (code bug, evaluated at the failing sequence): allocate 0x1000,
allocate 0x401000 (same bucket), free the 0x1000 descriptor (the release is
logged, so the provider may legitimately re-grant 0x1000), allocate again
and receive 0x1000: the broken remove left the old entry behind, so bucket 1
now holds two distinct descriptors (ids 2 and 0) with the same page-aligned
virtual address 0x1000 -- the uniqueness invariant is violated. -/
theorem cache_duplicate_address_reachable :
    (((__alloc_pages (initSt [4096, 4198400, 4096] (fun _ => 0)) GFP_KERNEL 0).bind
        fun r1 => (__alloc_pages r1.2 GFP_KERNEL 0).bind
        fun r2 => (__alloc_pages (__free_pages r2.2 r1.1 0) GFP_KERNEL 0).map
        fun r3 => (r3.2.cache 1, r3.2.frees))
      = some ([⟨2, 4096⟩, ⟨1, 4198400⟩, ⟨0, 4096⟩], [4096]))
    ∧ (⟨2, 4096⟩ : Page) ≠ ⟨0, 4096⟩
    ∧ (⟨2, 4096⟩ : Page).virtual = (⟨0, 4096⟩ : Page).virtual := by decide

/-- C4 (code bug, evaluated at the failing input): with bucketsize 4096 and
numentries 8 (`log2qty = 3`, `size = 32768`) and a provider that denies every
request, `alloc_large_system_hash` requests 32768 bytes (order 3) on every
one of its three iterations -- `size` is computed once, before the loop, so
the requirement never halves -- and then panics without ever having requested
a single page (`PAGE_SIZE` = 4096 bytes never appears in the request trace). -/
theorem alloc_large_system_hash_constant_order :
    ((alloc_large_system_hash (initSt [] (fun _ => 0)) 4096 8 100).map
        (fun r => (r.1, r.2.reqs)) = some (AlshOut.panicked, [32768, 32768, 32768]))
    ∧ PAGE_SIZE ∉ [32768, 32768, 32768] := by decide

/-- C6: a live descriptor `d` with page-aligned `virtual` that is the cache's
only entry for that address is returned by `lookup(d.virtual + o)` for every
offset `o < PAGE_SIZE`, and in particular by `lookup(d.virtual)`: the hash
discards the page-offset bits and the bucket scan compares against the
address masked to its page boundary. -/
theorem lookup_page_boundary_insensitive (c : PageCache) (d : Page) (o : Nat)
    (ha : pageMask d.virtual = d.virtual) (ho : o < PAGE_SIZE)
    (hmem : d ∈ c (VIRT_TO_PAGEHASH d.virtual))
    (huniq : ∀ e ∈ c (VIRT_TO_PAGEHASH d.virtual), e.virtual = d.virtual → e = d) :
    dde_linux26_page_lookup c (d.virtual + o) = some d
    ∧ dde_linux26_page_lookup c d.virtual = some d := by
  have key : ∀ va, VIRT_TO_PAGEHASH va = VIRT_TO_PAGEHASH d.virtual →
      pageMask va = d.virtual → dde_linux26_page_lookup c va = some d := by
    intro va hh hm
    simp only [dde_linux26_page_lookup]
    rw [hh, hm]
    exact find?_eq_of_unique _ d d.virtual rfl hmem huniq
  exact ⟨key _ (hash_add_small ha ho) (pageMask_add_small ha ho), key _ rfl ha⟩

/-- C6 witness: the lone descriptor for 0x1000 is found at offset 0x10 and
at offset 0. -/
theorem lookup_page_boundary_insensitive_witness :
    pageMask 4096 = 4096 ∧ (16 : Nat) < PAGE_SIZE
    ∧ dde_linux26_page_lookup bucketOneCache (4096 + 16) = some ⟨0, 4096⟩
    ∧ dde_linux26_page_lookup bucketOneCache 4096 = some ⟨0, 4096⟩ := by
  have h := lookup_page_boundary_insensitive bucketOneCache ⟨0, 4096⟩ 16
    (by decide) (by decide) (by decide) (by decide)
  exact ⟨by decide, by decide, h.1, h.2⟩

/-- C7: `get_zeroed_page` requests exactly one page (order 0, `PAGE_SIZE`
bytes) via `__get_free_pages` and never touches the cache; on success
(non-zero address) every byte of the returned page is zero at the moment of
return; on provider failure the failure value 0 is returned unchanged and
the zeroing write never runs (memory is untouched). -/
theorem get_zeroed_page_spec (s : St) (gfp a p : Nat) (s' : St)
    (hg : gfp ≠ GFP_DMA) (h : get_zeroed_page s gfp = some (p, s')) :
    s'.reqs = PAGE_SIZE :: s.reqs
    ∧ s'.cache = s.cache
    ∧ (p ≠ 0 → p ≤ a → a < p + PAGE_SIZE → s'.mem a = 0)
    ∧ (p = 0 → s'.mem = s.mem) := by
  simp only [get_zeroed_page, __get_free_pages, if_neg hg, dde_kit_large_malloc,
    Option.map_some'] at h
  rw [Option.some.injEq, Prod.mk.injEq] at h
  obtain ⟨hp, hs⟩ := h
  subst hp
  by_cases h0 : s.oracle.headD 0 = 0
  · rw [if_neg (not_not_intro h0)] at hs
    subst hs
    refine ⟨by simp [Nat.shiftLeft_zero], rfl, fun hne => absurd h0 hne, fun _ => rfl⟩
  · rw [if_pos h0] at hs
    subst hs
    refine ⟨by simp [Nat.shiftLeft_zero], rfl, fun _ hle hlt => ?_,
      fun hz => absurd hz h0⟩
    show memset s.mem (s.oracle.headD 0) 0 PAGE_SIZE a = 0
    simp only [memset]
    rw [if_pos ⟨hle, hlt⟩]

/-- C7 witness: granting address 0x2000 on all-7 memory, the page content at
0x2328 is zero after the call and the single request was for one page. -/
theorem get_zeroed_page_spec_witness :
    GFP_KERNEL ≠ GFP_DMA
    ∧ get_zeroed_page (initSt [8192] (fun _ => 7)) GFP_KERNEL
        = some (8192, zeroWitnessSt)
    ∧ zeroWitnessSt.mem 9000 = 0
    ∧ zeroWitnessSt.reqs = PAGE_SIZE :: (initSt [8192] (fun _ => 7)).reqs :=
  ⟨by decide, rfl,
   (get_zeroed_page_spec (initSt [8192] (fun _ => 7)) GFP_KERNEL 9000 8192
      zeroWitnessSt (by decide) rfl).2.2.1 (by decide) (by decide) (by decide),
   (get_zeroed_page_spec (initSt [8192] (fun _ => 7)) GFP_KERNEL 9000 8192
      zeroWitnessSt (by decide) rfl).1⟩

/-- C8: `__get_free_pages` (`allocate_raw`) and `__alloc_pages`
(`allocate_pages`) request exactly `PAGE_SIZE << order` bytes from the
provider; order 0 requests 4096 bytes and order 3 requests 32768 bytes. -/
theorem order_sizing (s : St) (gfp order : Nat) (hg : gfp ≠ GFP_DMA) :
    (__get_free_pages s gfp order).map (fun r => r.2.reqs)
        = some ((PAGE_SIZE <<< order) :: s.reqs)
    ∧ (__alloc_pages s gfp order).map (fun r => r.2.reqs)
        = some ((PAGE_SIZE <<< order) :: s.reqs)
    ∧ PAGE_SIZE <<< 0 = 4096 ∧ PAGE_SIZE <<< 3 = 32768 := by
  refine ⟨?_, ?_, by decide, by decide⟩ <;>
    simp [__get_free_pages, if_neg hg, __alloc_pages, dde_kit_large_malloc]

/-- C8 witness: an order-3 request from the initial state asks the provider
for 32768 bytes. -/
theorem order_sizing_witness :
    GFP_KERNEL ≠ GFP_DMA
    ∧ (__get_free_pages (initSt [] (fun _ => 0)) GFP_KERNEL 3).map
        (fun r => r.2.reqs) = some [32768] :=
  ⟨by decide, (order_sizing (initSt [] (fun _ => 0)) GFP_KERNEL 3 (by decide)).1⟩

/-- C9: removing an address with no entry in the cache leaves the whole table
unchanged (a no-op, not an error); after insert-then-remove of an aligned
address, a second remove is again a no-op; and any remove whatsoever leaves
every entry keyed under a different page-aligned address resolvable by
lookup, with the same result as before. -/
theorem remove_absent_noop (c : PageCache) (p : Page)
    (habs : ∀ i, ∀ e ∈ c i, e.virtual ≠ pageMask p.virtual)
    (hal : pageMask p.virtual = p.virtual) :
    dde_linux26_page_cache_remove c p = c
    ∧ dde_linux26_page_cache_remove (dde_linux26_page_cache_add c p) p = c
    ∧ dde_linux26_page_cache_remove
        (dde_linux26_page_cache_remove (dde_linux26_page_cache_add c p) p) p = c
    ∧ ∀ (c' : PageCache) (q : Page) (va : Nat),
        pageMask va ≠ pageMask q.virtual →
        dde_linux26_page_lookup (dde_linux26_page_cache_remove c' q) va
          = dde_linux26_page_lookup c' va := by
  have h1 : dde_linux26_page_cache_remove c p = c := by
    funext i
    simp only [dde_linux26_page_cache_remove]
    by_cases hi : i = VIRT_TO_PAGEHASH p.virtual
    · rw [if_pos hi]
      cases hc : c i with
      | nil => rfl
      | cons e rest =>
        simp only [removeHead]
        rw [if_neg (habs i e (by rw [hc]; exact List.mem_cons_self e rest))]
    · rw [if_neg hi]
  have h2 : dde_linux26_page_cache_remove (dde_linux26_page_cache_add c p) p = c := by
    funext i
    simp only [dde_linux26_page_cache_remove, dde_linux26_page_cache_add]
    by_cases hi : i = VIRT_TO_PAGEHASH p.virtual
    · rw [if_pos hi, if_pos hi]
      simp only [removeHead]
      rw [if_pos hal.symm]
    · rw [if_neg hi, if_neg hi]
  refine ⟨h1, h2, by rw [h2]; exact h1, ?_⟩
  intro c' q va hne
  simp only [dde_linux26_page_lookup, dde_linux26_page_cache_remove]
  by_cases hb : VIRT_TO_PAGEHASH va = VIRT_TO_PAGEHASH q.virtual
  · rw [if_pos hb]
    cases hc : c' (VIRT_TO_PAGEHASH va) with
    | nil => rfl
    | cons e rest =>
      simp only [removeHead]
      by_cases hm : e.virtual = pageMask q.virtual
      · have hpred : ¬((fun x : Page => x.virtual == pageMask va) e = true) := by
          simp only [hm, beq_iff_eq]
          exact fun h => hne h.symm
        rw [if_pos hm]
        exact (List.find?_cons_of_neg rest hpred).symm
      · rw [if_neg hm]
  · rw [if_neg hb]

/-- C9 witness: on the empty cache, removing 0x1000 is a no-op, and after
insert-then-remove of 0x1000 the cache is empty again. -/
theorem remove_absent_noop_witness :
    pageMask 4096 = 4096
    ∧ dde_linux26_page_cache_remove (fun _ => []) ⟨0, 4096⟩ = (fun _ => [])
    ∧ dde_linux26_page_cache_remove
        (dde_linux26_page_cache_add (fun _ => []) ⟨0, 4096⟩) ⟨0, 4096⟩
        = (fun _ => []) := by
  have h := remove_absent_noop (fun _ => []) ⟨0, 4096⟩
    (fun i e he => absurd he (List.not_mem_nil e)) (by decide)
  exact ⟨by decide, h.1, h.2.1⟩

/-- C10: insert places the new entry at the head of its bucket, and lookup
scans from the head, so for any prior cache contents -- including several
entries whose descriptors share the same page-aligned virtual address --
looking up that address (or anything masking to it) returns the most
recently inserted descriptor. -/
theorem lookup_most_recent_insert (c : PageCache) (p : Page) (va : Nat)
    (h : pageMask va = p.virtual) :
    (dde_linux26_page_cache_add c p) (VIRT_TO_PAGEHASH p.virtual)
        = p :: c (VIRT_TO_PAGEHASH p.virtual)
    ∧ dde_linux26_page_lookup (dde_linux26_page_cache_add c p) va = some p :=
  ⟨by simp [dde_linux26_page_cache_add], lookup_add_eq c p va h⟩

/-- C10 witness: with an older descriptor (id 0) for 0x1000 already cached,
inserting a newer one (id 5) for the same address makes lookup return the
newer descriptor, where before it returned the older one. -/
theorem lookup_most_recent_insert_witness :
    pageMask 4096 = (⟨5, 4096⟩ : Page).virtual
    ∧ dde_linux26_page_lookup
        (dde_linux26_page_cache_add bucketOneCache ⟨5, 4096⟩) 4096 = some ⟨5, 4096⟩
    ∧ dde_linux26_page_lookup bucketOneCache 4096 = some ⟨0, 4096⟩ :=
  ⟨by decide,
   (lookup_most_recent_insert bucketOneCache ⟨5, 4096⟩ 4096 (by decide)).2,
   by decide⟩
